import Mathlib

/-!
Shallow embedding of the traffic-report-to-route-segment matching engine of
the smart-roads repository (server/data/roadReports.js,
server/services/routeService.js, and the route-annotation handler).

Modelling conventions:
* JS strings are Lean `String`s; the empty string stands for a missing /
  `undefined` name or roadId (JS string falsiness).
* Coordinates are `Option ℚ`; `none` is a missing coordinate.  The JS
  truthiness test `!report.lat` is true for a missing coordinate and for the
  number 0, which `jsFalsyCoord` reproduces.
* Timestamps are milliseconds since the epoch as `Nat`; `Date#getDay`,
  `getHours`, `getMinutes` are modelled in UTC (epoch day is a Thursday).
* The Haversine distance itself is float / transcendental arithmetic; no
  claim below depends on its values, so the report-store proximity filter is
  parameterised over an arbitrary rational-valued distance function `dist`,
  and every theorem quantifies over `dist`.
-/

namespace SmartRoads

/-- A stored traffic report (`reports` array entries in roadReports.js). -/
structure Report where
  id : Nat
  roadId : String
  roadName : String
  reportType : String
  lat : Option ℚ
  lng : Option ℚ
  timestamp : Nat
  deriving DecidableEq, Repr

/-! ### String machinery used by the fuzzy street-name matching

`roadReports.js` lowercases, trims, tests substring containment
(`String#includes`) and matches the regex `/(kn|kg|dr)\s*\d+/i`.
We model strings as `List Char` internally. -/

/-- JS `\s` (the whitespace characters that occur in our data). -/
def isWsChar (c : Char) : Bool :=
  c == ' ' || c == '\t' || c == '\n' || c == '\r' || c == '\x0b' || c == '\x0c'

/-- ASCII lowercase of a string, as `String.prototype.toLowerCase` on the
ASCII road names in the store. -/
def lowerStr (s : List Char) : List Char := s.map Char.toLower

/-- `String.prototype.trim`: strip whitespace at both ends. -/
def trimStr (s : List Char) : List Char :=
  ((s.dropWhile isWsChar).reverse.dropWhile isWsChar).reverse

/-- `pat` is a leading piece of `s`. -/
def leadMatch : List Char → List Char → Bool
  | [], _ => true
  | _ :: _, [] => false
  | p :: ps, c :: cs => p == c && leadMatch ps cs

/-- JS `s.includes(pat)`: `pat` occurs contiguously inside `s`. -/
def hasSub (pat : List Char) : List Char → Bool
  | [] => leadMatch pat []
  | c :: cs => leadMatch pat (c :: cs) || hasSub pat cs

/-- Decimal digit test (JS `\d`). -/
def isDigitCh (c : Char) : Bool := '0' ≤ c && c ≤ '9'

/-- Attempt the regex `(kn|kg|dr)\s*\d+` at the head of the (already
lowercased) string; returns the matched characters.  `\s*` and `\d+` are
greedy; no backtracking is needed because whitespace and digits are
disjoint. -/
def codeAt (s : List Char) : Option (List Char) :=
  match s with
  | a :: b :: rest =>
    if (a == 'k' && (b == 'n' || b == 'g')) || (a == 'd' && b == 'r') then
      let ws := rest.takeWhile isWsChar
      let rest2 := rest.dropWhile isWsChar
      let ds := rest2.takeWhile isDigitCh
      if ds.isEmpty then none else some (a :: b :: (ws ++ ds))
    else none
  | _ => none

/-- JS `s.match(/(kn|kg|dr)\s*\d+/i)[0]` on a lowercased string: the
leftmost match. -/
def findCode : List Char → Option (List Char)
  | [] => none
  | c :: cs =>
    match codeAt (c :: cs) with
    | some m => some m
    | none => findCode cs

/-! ### Report store lookups (roadReports.js) -/

/-- `getReportsForRoad`: exact filter on `roadId`. -/
def getReportsForRoad (reports : List Report) (roadId : String) : List Report :=
  reports.filter fun report => report.roadId == roadId

/-- The per-report predicate of `getReportsByStreetName` applied to an
already supplied normalized query name. -/
def streetNameHit (normalizedName : List Char) (roadName : String) : Bool :=
  let reportName := trimStr (lowerStr roadName.data)
  if reportName == normalizedName then true
  else if hasSub normalizedName reportName || hasSub reportName normalizedName then true
  else
    match findCode reportName, findCode normalizedName with
    | some a, some b => a == b
    | _, _ => false

/-- `getReportsByStreetName`: fuzzy name matching — exact / containment /
shared `(kn|kg|dr)\s*\d+` code, the matched substring compared verbatim. -/
def getReportsByStreetName (reports : List Report) (streetName : String) : List Report :=
  if streetName == "" then []
  else
    let normalizedName := trimStr (lowerStr streetName.data)
    reports.filter fun report => streetNameHit normalizedName report.roadName

/-- JS truthiness of a coordinate: `!report.lat` holds for a missing
coordinate and for 0. -/
def jsFalsyCoord : Option ℚ → Bool
  | none => true
  | some x => x == 0

/-- `getReportsNearLocation`, parameterised by the distance function
(`dist rlat rlng qlat qlng`); the source computes the Haversine formula in
floating point here. -/
def getReportsNearLocation (dist : ℚ → ℚ → ℚ → ℚ → ℚ) (reports : List Report)
    (lat lng maxDistanceMeters : ℚ) : List Report :=
  reports.filter fun report =>
    if jsFalsyCoord report.lat || jsFalsyCoord report.lng then false
    else
      match report.lat, report.lng with
      | some rlat, some rlng => decide (dist rlat rlng lat lng ≤ maxDistanceMeters)
      | _, _ => false

/-! ### Date decomposition (UTC model of `Date#getDay/getHours/getMinutes`) -/

def dateDay (ts : Nat) : Nat := (ts / 86400000 + 4) % 7

def dateHours (ts : Nat) : Nat := ts / 3600000 % 24

def dateMinutes (ts : Nat) : Nat := ts / 60000 % 60

/-- `Math.abs(a - b)` for the minute-of-day comparison. -/
def natDist (a b : Nat) : Nat := max a b - min a b

/-- Day-of-week and time-window filter shared by both historical queries. -/
def historicalTimeOk (dayOfWeek timeWindow toleranceMinutes ts : Nat) : Bool :=
  if dateDay ts != dayOfWeek then false
  else
    let reportTimeInMinutes := dateHours ts * 60 + dateMinutes ts
    let targetTimeInMinutes := timeWindow * 60
    decide (natDist reportTimeInMinutes targetTimeInMinutes ≤ toleranceMinutes)

/-- `getHistoricalReports(roadId, dayOfWeek, timeWindow, toleranceMinutes)`:
day/time filter, then roadId match with a substring fallback on
`roadName` (no trim here, matching the source). -/
def getHistoricalReports (reports : List Report) (roadId : String)
    (dayOfWeek timeWindow toleranceMinutes : Nat) : List Report :=
  reports.filter fun report =>
    if !historicalTimeOk dayOfWeek timeWindow toleranceMinutes report.timestamp then false
    else if roadId != "" && report.roadId != roadId then
      let reportName := lowerStr report.roadName.data
      let searchName := lowerStr roadId.data
      hasSub searchName reportName || hasSub reportName searchName
    else true

/-- `getHistoricalReportsByStreetName`: day/time filter, then the fuzzy
street-name rule of `getReportsByStreetName`. -/
def getHistoricalReportsByStreetName (reports : List Report) (streetName : String)
    (dayOfWeek timeWindow toleranceMinutes : Nat) : List Report :=
  reports.filter fun report =>
    if !historicalTimeOk dayOfWeek timeWindow toleranceMinutes report.timestamp then false
    else if streetName == "" then false
    else streetNameHit (trimStr (lowerStr streetName.data)) report.roadName

/-! ### Report summaries -/

/-- The five-key tally object of `getReportSummary`. -/
structure Summary where
  light : Nat
  medium : Nat
  heavy : Nat
  blocked : Nat
  accident : Nat
  deriving DecidableEq, Repr

def Summary.zero : Summary := ⟨0, 0, 0, 0, 0⟩

/-- One `forEach` step: `if (summary[report.reportType] !== undefined)
summary[report.reportType]++`. -/
def bumpSummary (s : Summary) (t : String) : Summary :=
  if t == "light" then { s with light := s.light + 1 }
  else if t == "medium" then { s with medium := s.medium + 1 }
  else if t == "heavy" then { s with heavy := s.heavy + 1 }
  else if t == "blocked" then { s with blocked := s.blocked + 1 }
  else if t == "accident" then { s with accident := s.accident + 1 }
  else s

/-- `getReportSummary`: tally `reportType` over the five known keys. -/
def getReportSummary (reports : List Report) : Summary :=
  reports.foldl (fun s r => bumpSummary s r.reportType) Summary.zero

/-- Look a severity name up in a summary (JS `summary[type]`). -/
def summaryGet (s : Summary) (t : String) : Nat :=
  if t == "light" then s.light
  else if t == "medium" then s.medium
  else if t == "heavy" then s.heavy
  else if t == "blocked" then s.blocked
  else if t == "accident" then s.accident
  else 0

/-! ### Historical pattern inference (`getHistoricalPattern`) -/

/-- The derived historical pattern record. -/
structure Pattern where
  type : String
  count : Nat
  totalReports : Nat
  confidence : ℚ
  lastReportDate : Nat
  deriving DecidableEq, Repr

/-- The fixed severity-priority order of the `for (const type of types)`
loop. -/
def severityOrder : List String := ["blocked", "heavy", "medium", "light", "accident"]

/-- First type in the given order whose tally is positive. -/
def pickType (s : Summary) : List String → Option String
  | [] => none
  | t :: ts => if summaryGet s t > 0 then some t else pickType s ts

/-- The two-stage historical query of `getHistoricalPattern`: roadId first
(when truthy), street-name fallback when that yielded nothing. -/
def historicalMatched (reports : List Report) (roadId streetName : String)
    (dayOfWeek timeWindow : Nat) : List Report :=
  let h1 := if roadId != "" then getHistoricalReports reports roadId dayOfWeek timeWindow 30 else []
  if h1.isEmpty && streetName != "" then
    getHistoricalReportsByStreetName reports streetName dayOfWeek timeWindow 30
  else h1

/-- Tail of `getHistoricalPattern` after the historical query: empty set
gives null, otherwise the first severity with a positive tally gives the
pattern; a non-empty set with no known severity falls through to the final
`return null`. -/
def patternFromReports (historicalReports : List Report) : Option Pattern :=
  if historicalReports.isEmpty then none
  else
    let summary := getReportSummary historicalReports
    match pickType summary severityOrder with
    | none => none
    | some t =>
      some { type := t
             count := summaryGet summary t
             totalReports := historicalReports.length
             confidence := (summaryGet summary t : ℚ) / (historicalReports.length : ℚ)
             lastReportDate := (historicalReports.map (fun r => r.timestamp)).foldl max 0 }

/-- `getHistoricalPattern(roadId, streetName, dayOfWeek, timeWindow)`. -/
def getHistoricalPattern (reports : List Report) (roadId streetName : String)
    (dayOfWeek timeWindow : Nat) : Option Pattern :=
  patternFromReports (historicalMatched reports roadId streetName dayOfWeek timeWindow)

/-! ### Segment matching (the three-tier step of the route annotation
handler) -/

/-- A geometry point `{lat, lng}`. -/
structure Point where
  lat : ℚ
  lng : ℚ
  deriving DecidableEq, Repr

/-- A road segment of a generated route; an absent geometry is the empty
list. -/
structure Segment where
  roadId : String
  roadName : String
  geometry : List Point
  deriving DecidableEq, Repr

/-- A `reportMap` key: either a truthy report id or, for a falsy id, the
whole serialized record. -/
inductive RepKey where
  | byId : Nat → RepKey
  | whole : Report → RepKey
  deriving DecidableEq, Repr

/-- The `reportMap` key `r.id || JSON.stringify(r)`: the id when truthy
(non-zero), the whole record otherwise. -/
def keyOf (r : Report) : RepKey :=
  if r.id == 0 then RepKey.whole r else RepKey.byId r.id

/-- First-occurrence-per-key deduplication, as insertion into `reportMap`
in iteration order. -/
def dedupByKey : List Report → List RepKey → List Report
  | [], _ => []
  | r :: rs, seen =>
    if keyOf r ∈ seen then dedupByKey rs seen
    else r :: dedupByKey rs (keyOf r :: seen)

/-- Tier 1: union over every geometry point of the reports within 200 m,
deduplicated by report id in first-occurrence order. -/
def coordMatches (dist : ℚ → ℚ → ℚ → ℚ → ℚ) (reports : List Report)
    (geometry : List Point) : List Report :=
  dedupByKey
    ((geometry.map fun p => getReportsNearLocation dist reports p.lat p.lng 200).flatten) []

/-- The three-tier segment matching step: coordinates, then roadId, then
fuzzy street name, each tier only consulted when the previous ones yielded
nothing. -/
def matchReports (dist : ℚ → ℚ → ℚ → ℚ → ℚ) (reports : List Report)
    (segment : Segment) : List Report :=
  let r1 := if segment.geometry.isEmpty then [] else coordMatches dist reports segment.geometry
  let r2 := if r1.isEmpty then getReportsForRoad reports segment.roadId else r1
  if r2.isEmpty && segment.roadName != "" then getReportsByStreetName reports segment.roadName
  else r2

/-- The recency filter on matched reports:
`new Date(r.timestamp) > new Date(Date.now() - 10*60*1000)` (strict). -/
def recentReports (now : Nat) (matched : List Report) : List Report :=
  matched.filter fun r => decide ((r.timestamp : ℤ) > (now : ℤ) - 600000)

/-! ### Route annotation (the `routesWithReports` map) -/

/-- The annotation attached to one segment. -/
structure AnnotatedSegment where
  segment : Segment
  reports : List Report
  recent : List Report
  reportCount : Nat
  recentReportCount : Nat
  reportSummary : Summary
  recentReportSummary : Summary
  historicalPattern : Option Pattern
  hasLiveData : Bool
  deriving DecidableEq, Repr

/-- Annotate one segment: match, filter recent, consult the historical
inferencer only when no recent report exists. -/
def annotateSegment (dist : ℚ → ℚ → ℚ → ℚ → ℚ) (pool : List Report)
    (now currentDayOfWeek currentHour : Nat) (segment : Segment) : AnnotatedSegment :=
  let reports := matchReports dist pool segment
  let recent := recentReports now reports
  let historicalPattern :=
    if recent.isEmpty then
      getHistoricalPattern pool segment.roadId segment.roadName currentDayOfWeek currentHour
    else none
  { segment := segment
    reports := reports
    recent := recent
    reportCount := reports.length
    recentReportCount := recent.length
    reportSummary := getReportSummary reports
    recentReportSummary := getReportSummary recent
    historicalPattern := historicalPattern
    hasLiveData := recent.length > 0 }

/-- The route-level traffic summary (a segment count per severity). -/
structure TrafficSummary where
  heavy : Nat
  medium : Nat
  light : Nat
  blocked : Nat
  deriving DecidableEq, Repr

/-- An annotated route. -/
structure AnnotatedRoute where
  roadSegments : List AnnotatedSegment
  hasFlaggedRoads : Bool
  trafficSummary : TrafficSummary
  deriving DecidableEq, Repr

/-- Annotate all segments of a route and aggregate: `hasFlaggedRoads` is
`some(seg.reports.length > 0)`, and the traffic summary counts segments
whose matched-report summary is positive per severity. -/
def annotateRoute (dist : ℚ → ℚ → ℚ → ℚ → ℚ) (pool : List Report)
    (now currentDayOfWeek currentHour : Nat) (segments : List Segment) : AnnotatedRoute :=
  let routeReports := segments.map (annotateSegment dist pool now currentDayOfWeek currentHour)
  { roadSegments := routeReports
    hasFlaggedRoads := routeReports.any fun seg => seg.reports.length > 0
    trafficSummary :=
      { heavy := (routeReports.filter fun seg => seg.reportSummary.heavy > 0).length
        medium := (routeReports.filter fun seg => seg.reportSummary.medium > 0).length
        light := (routeReports.filter fun seg => seg.reportSummary.light > 0).length
        blocked := (routeReports.filter fun seg => seg.reportSummary.blocked > 0).length } }

/-! ### Route diversity collection (`getRoutesFromOSRM`)

Only the distances matter for the deduplication logic, so collected routes
are represented by their `distance_km` value (a one-decimal number in the
source, parsed back with `parseFloat`). -/

/-- JS `Math.abs` on the (here rational) distance difference. -/
def ratAbs (x : ℚ) : ℚ := if x < 0 then -x else x

/-- `isUnique`: the candidate differs by at least 0.5 km from every
already-collected route
(`!allRoutes.some(existing => Math.abs(existing - distance) < 0.5)`). -/
def acceptRoute (collected : List ℚ) (d : ℚ) : Bool :=
  !(collected.any fun existing => decide (ratAbs (existing - d) < 1 / 2))

/-- The waypoint-route collection loop: starting from the base routes, each
waypoint-generated candidate is pushed exactly when `isUnique` holds. -/
def collectDiverse (initial : List ℚ) (candidates : List ℚ) : List ℚ :=
  candidates.foldl (fun acc d => if acceptRoute acc d then acc ++ [d] else acc) initial

/-! ### Spec-side definitions used for refinement comparison -/

/-- ASCII letter test, for the spec's "1–2 letter code". -/
def isLetterCh (c : Char) : Bool :=
  ('a' ≤ c && c ≤ 'z') || ('A' ≤ c && c ≤ 'Z')

/-- Following the spec's words: at the head of the string, a 1–2 letter
code followed by digits, returned with the internal whitespace normalized
away (so "kn5" and "kn 5" yield the same code). -/
def specCodeAt (s : List Char) : Option (List Char) :=
  let letters := s.takeWhile isLetterCh
  if letters.length == 1 || letters.length == 2 then
    let rest := (s.drop letters.length).dropWhile isWsChar
    let ds := rest.takeWhile isDigitCh
    if ds.isEmpty then none else some (letters ++ ds)
  else none

/-- Leftmost spec-style road code in a string. -/
def specFindCode : List Char → Option (List Char)
  | [] => none
  | c :: cs =>
    match specCodeAt (c :: cs) with
    | some m => some m
    | none => specFindCode cs

/-- Following the spec's words for `reportsByStreetName`: case-insensitive,
either string contains the other, or both carry the same road-code pattern
compared after normalizing internal whitespace. -/
def specNameMatch (query roadName : String) : Bool :=
  let a := trimStr (lowerStr query.data)
  let b := trimStr (lowerStr roadName.data)
  hasSub a b || hasSub b a ||
    (match specFindCode a, specFindCode b with
     | some x, some y => x == y
     | _, _ => false)

/-- The amended street-name rule, as the source implements it: after
lowercasing and trimming, the strings are equal, or one contains the other,
or both contain a `(kn|kg|dr)\s*\d+` road code and the two matched
substrings are identical verbatim (internal whitespace included). -/
def amendedNameRule (query roadName : String) : Prop :=
  let a := trimStr (lowerStr query.data)
  let b := trimStr (lowerStr roadName.data)
  b = a ∨ hasSub a b = true ∨ hasSub b a = true ∨
    ∃ c, findCode b = some c ∧ findCode a = some c

/-- `t` is the first severity of `severityOrder` whose tally in `s` is
positive. -/
def firstPositive (s : Summary) (t : String) : Prop :=
  ∃ pre post, severityOrder = pre ++ t :: post ∧ summaryGet s t > 0 ∧
    ∀ u ∈ pre, summaryGet s u = 0

/-! ### Concrete inputs used by counterexamples and witnesses -/

/-- A degenerate distance function (everything at distance 0). -/
def dist0 : ℚ → ℚ → ℚ → ℚ → ℚ := fun _ _ _ _ => 0

/-- Build a coordinate-less report. -/
def mkReport (i : Nat) (rid rname rtype : String) (ts : Nat) : Report :=
  { id := i, roadId := rid, roadName := rname, reportType := rtype,
    lat := none, lng := none, timestamp := ts }

/-- A report submitted at the epoch; at `now = 600000` its age is exactly
600 seconds. -/
def reportAge600 : Report := mkReport 1 "r1" "KN 5" "heavy" 0

/-- Five light reports and one heavy report on the same road at the epoch
(day of week 4, hour 0). -/
def poolLightHeavy : List Report :=
  [mkReport 1 "r1" "KN 5" "light" 0, mkReport 2 "r1" "KN 5" "light" 0,
   mkReport 3 "r1" "KN 5" "light" 0, mkReport 4 "r1" "KN 5" "light" 0,
   mkReport 5 "r1" "KN 5" "light" 0, mkReport 6 "r1" "KN 5" "heavy" 0]

/-- One matching report whose `reportType` lies outside the five-key
enum. -/
def poolUnknownType : List Report := [mkReport 1 "r1" "KN 5" "weird" 0]

/-- A report named "KN 5" (with a space), to be queried as "KN5". -/
def reportKN5Spaced : Report := mkReport 1 "r1" "KN 5" "heavy" 0

/-- A report with no road name at all. -/
def reportNameless : Report := mkReport 1 "otherRoad" "" "heavy" 0

/-- A report at coordinate latitude 0 (JS-falsy) but non-zero longitude. -/
def reportZeroLat : Report :=
  { id := 1, roadId := "r1", roadName := "KN 5", reportType := "heavy",
    lat := some 0, lng := some 30, timestamp := 0 }

/-- A single heavy report used to witness the pattern-selection theorem. -/
def reportHeavyOnly : Report := mkReport 1 "r1" "KN 5" "heavy" 0

/-- Three heavy reports sharing one location, all live at `now = 600000`. -/
def poolThreeHeavy : List Report :=
  [{ id := 1, roadId := "r1", roadName := "KN 5", reportType := "heavy",
     lat := some 1, lng := some 1, timestamp := 600000 },
   { id := 2, roadId := "r1", roadName := "KN 5", reportType := "heavy",
     lat := some 1, lng := some 1, timestamp := 600000 },
   { id := 3, roadId := "r1", roadName := "KN 5", reportType := "heavy",
     lat := some 1, lng := some 1, timestamp := 600000 }]

/-- A segment with a one-point geometry. -/
def segOnePoint : Segment :=
  { roadId := "seg1", roadName := "KN 5", geometry := [{ lat := 1, lng := 1 }] }

/-- A report submitted one millisecond before `now = 1000000` minus ten
minutes would expire it; it is live. -/
def reportLive : Report := mkReport 2 "r1" "KN 5" "heavy" 999999

/-- No severity of the five-key enum has a positive tally. -/
def noKnownSeverity (s : Summary) : Prop :=
  s.blocked = 0 ∧ s.heavy = 0 ∧ s.medium = 0 ∧ s.light = 0 ∧ s.accident = 0

/-- The pattern inferred from the singleton heavy pool. -/
def patternHeavyOnly : Pattern :=
  { type := "heavy", count := 1, totalReports := 1,
    confidence := ((1 : Nat) : ℚ) / ((1 : Nat) : ℚ), lastReportDate := 0 }

/-- The pattern inferred from `poolLightHeavy`: heavy wins over the light
majority with confidence 1/6. -/
def patternLightHeavy : Pattern :=
  { type := "heavy", count := 1, totalReports := 6,
    confidence := ((1 : Nat) : ℚ) / ((6 : Nat) : ℚ), lastReportDate := 0 }

/-! ## Shared lemmas -/

theorem hasSub_nil_pat (s : List Char) : hasSub [] s = true := by
  cases s <;> simp [hasSub, leadMatch]

theorem dedupByKey_subset {r : Report} :
    ∀ {l : List Report} {seen : List RepKey},
      r ∈ dedupByKey l seen → r ∈ l := by
  intro l
  induction l with
  | nil => intro seen h; simp [dedupByKey] at h
  | cons a tl ih =>
    intro seen h
    rw [dedupByKey] at h
    split at h
    · exact List.mem_cons_of_mem _ (ih h)
    · rcases List.mem_cons.mp h with rfl | h
      · exact List.mem_cons_self _ _
      · exact List.mem_cons_of_mem _ (ih h)

theorem dedupByKey_covers {r : Report} :
    ∀ {l : List Report} {seen : List RepKey}, r ∈ l →
      keyOf r ∈ seen ∨ ∃ r', r' ∈ dedupByKey l seen ∧ keyOf r' = keyOf r := by
  intro l
  induction l with
  | nil => intro seen h; simp at h
  | cons a tl ih =>
    intro seen h
    rw [dedupByKey]
    split
    · next hc =>
      rcases List.mem_cons.mp h with rfl | h
      · exact Or.inl hc
      · exact ih h
    · rcases List.mem_cons.mp h with rfl | h
      · exact Or.inr ⟨r, List.mem_cons_self _ _, rfl⟩
      · rcases @ih (keyOf a :: seen) h with hk | ⟨r', hr', hkey⟩
        · rcases List.mem_cons.mp hk with hk | hk
          · exact Or.inr ⟨a, List.mem_cons_self _ _, hk.symm⟩
          · exact Or.inl hk
        · exact Or.inr ⟨r', List.mem_cons_of_mem _ hr', hkey⟩

theorem mem_coordMatches_iff {dist : ℚ → ℚ → ℚ → ℚ → ℚ} {pool : List Report}
    {geometry : List Point} {r : Report} :
    r ∈ ((geometry.map fun p => getReportsNearLocation dist pool p.lat p.lng 200).flatten) ↔
      ∃ p ∈ geometry, r ∈ getReportsNearLocation dist pool p.lat p.lng 200 := by
  simp [List.mem_flatten]

/-- A JS-falsy coordinate (0 or missing) bars a report from the proximity
filter, whatever the distance function says. -/
theorem zeroCoord_not_near {r : Report} (h : r.lat = some 0 ∨ r.lng = some 0)
    (dist : ℚ → ℚ → ℚ → ℚ → ℚ) (pool : List Report) (lat lng radius : ℚ) :
    r ∉ getReportsNearLocation dist pool lat lng radius := by
  intro hmem
  rw [getReportsNearLocation, List.mem_filter] at hmem
  rcases hmem with ⟨-, hpred⟩
  rcases h with h | h <;>
    simp [h, jsFalsyCoord] at hpred

/-! ## C2: the recency partition -/

/-- C2, counterexample: with `now = 600000` the report submitted at the
epoch has age exactly 600 seconds, belongs to the matched list, and is NOT
classified as recent — the claim says a report of age exactly 600 s is
live. -/
theorem claim2_recency_counterexample :
    reportAge600 ∈ [reportAge600] ∧
    recentReports 600000 [reportAge600] = [] ∧
    (600000 : ℤ) - (reportAge600.timestamp : ℤ) = 600000 := by
  decide

/-- C2, amended: the recent list is a subset of the matched list, every
recent report has age strictly below 600 seconds (600000 ms), and every
matched report left out of the recent list has age at least 600 seconds;
a report of age exactly 600 seconds is not recent. -/
theorem claim2_recency_amended (now : Nat) (matched : List Report) :
    (∀ r ∈ recentReports now matched,
        r ∈ matched ∧ (now : ℤ) - (r.timestamp : ℤ) < 600000) ∧
    (∀ r ∈ matched, r ∉ recentReports now matched →
        (now : ℤ) - (r.timestamp : ℤ) ≥ 600000) := by
  constructor
  · intro r hr
    rw [recentReports, List.mem_filter] at hr
    rcases hr with ⟨hm, hp⟩
    rw [decide_eq_true_iff] at hp
    exact ⟨hm, by omega⟩
  · intro r hm hnot
    by_contra hlt
    push_neg at hlt
    exact hnot (by
      rw [recentReports, List.mem_filter]
      exact ⟨hm, by rw [decide_eq_true_iff]; omega⟩)

/-- C2, witness: the amended theorem applied to a singleton pool with a
just-submitted report. -/
theorem claim2_recency_witness :
    reportLive ∈ [reportLive] ∧ (1000000 : ℤ) - (reportLive.timestamp : ℤ) < 600000 :=
  (claim2_recency_amended 1000000 [reportLive]).1 reportLive (by decide)

/-! ## C9: zero coordinates are excluded from proximity matching -/

/-- C9: a stored report whose latitude or longitude is 0 is never returned
by `getReportsNearLocation`, for every query point, radius and distance
function, and can therefore enter a segment's matched list only through
the roadId tier or the street-name tier. -/
theorem claim9_zero_coordinate (dist : ℚ → ℚ → ℚ → ℚ → ℚ) (pool : List Report)
    (lat lng radius : ℚ) (r : Report) (h : r.lat = some 0 ∨ r.lng = some 0) :
    r ∉ getReportsNearLocation dist pool lat lng radius ∧
    ∀ seg : Segment, r ∈ matchReports dist pool seg →
      r ∈ getReportsForRoad pool seg.roadId ∨ r ∈ getReportsByStreetName pool seg.roadName := by
  refine ⟨zeroCoord_not_near h dist pool lat lng radius, ?_⟩
  intro seg hmem
  have hnotin : r ∉ coordMatches dist pool seg.geometry := by
    intro hin
    rw [coordMatches] at hin
    rcases mem_coordMatches_iff.mp (dedupByKey_subset hin) with ⟨p, -, hp⟩
    exact zeroCoord_not_near h dist pool p.lat p.lng 200 hp
  rw [matchReports] at hmem
  by_cases hg : seg.geometry.isEmpty
  · simp only [hg, if_true, List.isEmpty_nil] at hmem
    split at hmem
    · exact Or.inr hmem
    · exact Or.inl hmem
  · simp only [hg, if_false, Bool.false_eq_true] at hmem
    by_cases hc : (coordMatches dist pool seg.geometry).isEmpty
    · simp only [hc, if_true] at hmem
      split at hmem
      · exact Or.inr hmem
      · exact Or.inl hmem
    · simp only [hc, if_false, Bool.false_and, Bool.false_eq_true] at hmem
      exact absurd hmem hnotin

/-- C9, witness: a stored report at latitude 0 is excluded from a proximity
query it would trivially pass (everything is at distance 0 under `dist0`). -/
theorem claim9_zero_coordinate_witness :
    reportZeroLat ∉ getReportsNearLocation dist0 [reportZeroLat] 0 0 200 :=
  (claim9_zero_coordinate dist0 [reportZeroLat] 0 0 200 reportZeroLat (Or.inl rfl)).1

/-! ## C10: name-less reports leak into every road's historical window -/

/-- C10: when a non-empty `roadId` is queried, a stored report with an
empty road name and a different roadId still passes `getHistoricalReports`
whenever its timestamp passes the day-of-week and time-window filters,
because the street-name substring fallback accepts the empty report name
(`searchName.includes("")` is true). -/
theorem claim10_nameless_leak (pool : List Report) (roadId : String)
    (day hour tol : Nat) (r : Report) (hmem : r ∈ pool) (hid : roadId ≠ "")
    (hname : r.roadName = "") (hdiff : r.roadId ≠ roadId)
    (htime : historicalTimeOk day hour tol r.timestamp = true) :
    r ∈ getHistoricalReports pool roadId day hour tol := by
  rw [getHistoricalReports, List.mem_filter]
  refine ⟨hmem, ?_⟩
  rw [htime]
  simp only [Bool.not_true, Bool.false_eq_true, if_false]
  have h1 : (roadId != "") = true := by simpa using hid
  have h2 : (r.roadId != roadId) = true := by simpa using hdiff
  rw [h1, h2]
  simp only [Bool.and_self, if_true]
  rw [hname]
  have : lowerStr ("" : String).data = [] := rfl
  rw [this, hasSub_nil_pat]
  simp

/-- C10, witness: a name-less report on another road shows up in the
historical window of "KN 5". -/
theorem claim10_nameless_leak_witness :
    reportNameless ∈ getHistoricalReports [reportNameless] "KN 5" 4 0 30 :=
  claim10_nameless_leak [reportNameless] "KN 5" 4 0 30 reportNameless
    (by decide) (by decide) rfl (by decide) (by decide)

/-! ## C8: the 0.5 km route deduplication threshold -/

theorem acceptRoute_iff_ge (collected : List ℚ) (d : ℚ) :
    acceptRoute collected d = true ↔ ∀ e ∈ collected, ratAbs (e - d) ≥ 1 / 2 := by
  rw [acceptRoute]
  simp [List.any_eq_true, not_lt]

theorem collectDiverse_invariant :
    ∀ (cands acc : List ℚ), ∃ extra,
      cands.foldl (fun acc d => if acceptRoute acc d then acc ++ [d] else acc) acc
        = acc ++ extra ∧
      ∀ pre d post, extra = pre ++ d :: post → ∀ e ∈ acc ++ pre, ratAbs (e - d) ≥ 1 / 2 := by
  intro cands
  induction cands with
  | nil =>
    intro acc
    refine ⟨[], by simp, ?_⟩
    intro pre d post h
    exact absurd (List.append_eq_nil.mp h.symm).2 (by simp)
  | cons c cs ih =>
    intro acc
    by_cases ha : acceptRoute acc c = true
    · rcases ih (acc ++ [c]) with ⟨extra, heq, hprop⟩
      refine ⟨c :: extra, ?_, ?_⟩
      · rw [List.foldl_cons, if_pos ha, heq, List.append_assoc]
        rfl
      · intro pre d post h
        cases pre with
        | nil =>
          simp only [List.nil_append] at h
          obtain ⟨rfl, -⟩ := List.cons.inj h
          intro e he
          rw [List.append_nil] at he
          exact (acceptRoute_iff_ge acc _).mp ha e he
        | cons p pre' =>
          rw [List.cons_append] at h
          obtain ⟨rfl, htl⟩ := List.cons.inj h
          intro e he
          apply hprop pre' d post htl
          rw [List.append_assoc]
          simpa using he
    · rcases ih acc with ⟨extra, heq, hprop⟩
      refine ⟨extra, ?_, hprop⟩
      rw [List.foldl_cons, if_neg ha, heq]

/-- C8: a waypoint-generated candidate is pushed onto the collected list
exactly when its distance differs by at least 0.5 km from every
already-collected route; 10.0 km vs 10.4 km is a duplicate while 10.0 km
vs 10.6 km is not; and in the collected output every waypoint-added route
differs by at least 0.5 km from every route before it. -/
theorem claim8_dedup_threshold :
    (∀ collected d, acceptRoute collected d = true ↔ ∀ e ∈ collected, ratAbs (e - d) ≥ 1 / 2) ∧
    acceptRoute [10] (52 / 5) = false ∧
    acceptRoute [10] (53 / 5) = true ∧
    ∀ initial candidates, ∃ extra,
      collectDiverse initial candidates = initial ++ extra ∧
      ∀ pre d post, extra = pre ++ d :: post → ∀ e ∈ initial ++ pre, ratAbs (e - d) ≥ 1 / 2 := by
  refine ⟨acceptRoute_iff_ge, ?_, ?_, ?_⟩
  · have h1 : ratAbs ((10 : ℚ) - 52 / 5) = 2 / 5 := by rw [ratAbs]; norm_num
    simp only [acceptRoute, List.any_cons, List.any_nil, Bool.or_false, Bool.not_eq_false',
      h1, decide_eq_true_eq]
    norm_num
  · have h1 : ratAbs ((10 : ℚ) - 53 / 5) = 3 / 5 := by rw [ratAbs]; norm_num
    simp only [acceptRoute, List.any_cons, List.any_nil, Bool.or_false, Bool.not_eq_true',
      h1, decide_eq_false_iff_not]
    norm_num
  · intro initial candidates
    exact collectDiverse_invariant candidates initial

/-- C8, witness: the threshold characterization applied to the collected
distance 10.0 km and the candidate 10.6 km. -/
theorem claim8_dedup_threshold_witness : ratAbs ((10 : ℚ) - 53 / 5) ≥ 1 / 2 :=
  (claim8_dedup_threshold.1 [10] (53 / 5)).mp
    (by
      have h1 : ratAbs ((10 : ℚ) - 53 / 5) = 3 / 5 := by rw [ratAbs]; norm_num
      simp only [acceptRoute, List.any_cons, List.any_nil, Bool.or_false, Bool.not_eq_true',
        h1, decide_eq_false_iff_not]
      norm_num)
    10 (List.mem_singleton.mpr rfl)

/-! ## C6: totality of the report summary -/

theorem Summary.ext_fields {s t : Summary} (h1 : s.light = t.light)
    (h2 : s.medium = t.medium) (h3 : s.heavy = t.heavy)
    (h4 : s.blocked = t.blocked) (h5 : s.accident = t.accident) : s = t := by
  cases s; cases t; simp_all

theorem bumpSummary_light (s : Summary) (t : String) :
    (bumpSummary s t).light = s.light + (if t == "light" then 1 else 0) := by
  rw [bumpSummary]; split_ifs <;> simp_all

theorem bumpSummary_medium (s : Summary) (t : String) :
    (bumpSummary s t).medium = s.medium + (if t == "medium" then 1 else 0) := by
  rw [bumpSummary]; split_ifs <;> simp_all

theorem bumpSummary_heavy (s : Summary) (t : String) :
    (bumpSummary s t).heavy = s.heavy + (if t == "heavy" then 1 else 0) := by
  rw [bumpSummary]; split_ifs <;> simp_all

theorem bumpSummary_blocked (s : Summary) (t : String) :
    (bumpSummary s t).blocked = s.blocked + (if t == "blocked" then 1 else 0) := by
  rw [bumpSummary]; split_ifs <;> simp_all

theorem bumpSummary_accident (s : Summary) (t : String) :
    (bumpSummary s t).accident = s.accident + (if t == "accident" then 1 else 0) := by
  rw [bumpSummary]; split_ifs <;> simp_all

theorem foldl_bump_light : ∀ (l : List Report) (s : Summary),
    (l.foldl (fun s r => bumpSummary s r.reportType) s).light
      = s.light + l.countP (fun r => r.reportType == "light") := by
  intro l
  induction l with
  | nil => intro s; simp
  | cons r tl ih =>
    intro s
    rw [List.foldl_cons, ih, bumpSummary_light, List.countP_cons]
    by_cases h : (r.reportType == "light") = true <;> (simp [h]; try omega)

theorem foldl_bump_medium : ∀ (l : List Report) (s : Summary),
    (l.foldl (fun s r => bumpSummary s r.reportType) s).medium
      = s.medium + l.countP (fun r => r.reportType == "medium") := by
  intro l
  induction l with
  | nil => intro s; simp
  | cons r tl ih =>
    intro s
    rw [List.foldl_cons, ih, bumpSummary_medium, List.countP_cons]
    by_cases h : (r.reportType == "medium") = true <;> (simp [h]; try omega)

theorem foldl_bump_heavy : ∀ (l : List Report) (s : Summary),
    (l.foldl (fun s r => bumpSummary s r.reportType) s).heavy
      = s.heavy + l.countP (fun r => r.reportType == "heavy") := by
  intro l
  induction l with
  | nil => intro s; simp
  | cons r tl ih =>
    intro s
    rw [List.foldl_cons, ih, bumpSummary_heavy, List.countP_cons]
    by_cases h : (r.reportType == "heavy") = true <;> (simp [h]; try omega)

theorem foldl_bump_blocked : ∀ (l : List Report) (s : Summary),
    (l.foldl (fun s r => bumpSummary s r.reportType) s).blocked
      = s.blocked + l.countP (fun r => r.reportType == "blocked") := by
  intro l
  induction l with
  | nil => intro s; simp
  | cons r tl ih =>
    intro s
    rw [List.foldl_cons, ih, bumpSummary_blocked, List.countP_cons]
    by_cases h : (r.reportType == "blocked") = true <;> (simp [h]; try omega)

theorem foldl_bump_accident : ∀ (l : List Report) (s : Summary),
    (l.foldl (fun s r => bumpSummary s r.reportType) s).accident
      = s.accident + l.countP (fun r => r.reportType == "accident") := by
  intro l
  induction l with
  | nil => intro s; simp
  | cons r tl ih =>
    intro s
    rw [List.foldl_cons, ih, bumpSummary_accident, List.countP_cons]
    by_cases h : (r.reportType == "accident") = true <;> (simp [h]; try omega)

/-- The summary is exactly the per-type occurrence count over the five
known keys. -/
theorem getReportSummary_eq_counts (reports : List Report) :
    getReportSummary reports =
      { light := reports.countP (fun r => r.reportType == "light")
        medium := reports.countP (fun r => r.reportType == "medium")
        heavy := reports.countP (fun r => r.reportType == "heavy")
        blocked := reports.countP (fun r => r.reportType == "blocked")
        accident := reports.countP (fun r => r.reportType == "accident") } := by
  refine Summary.ext_fields ?_ ?_ ?_ ?_ ?_
  · rw [getReportSummary, foldl_bump_light]; simp [Summary.zero]
  · rw [getReportSummary, foldl_bump_medium]; simp [Summary.zero]
  · rw [getReportSummary, foldl_bump_heavy]; simp [Summary.zero]
  · rw [getReportSummary, foldl_bump_blocked]; simp [Summary.zero]
  · rw [getReportSummary, foldl_bump_accident]; simp [Summary.zero]

theorem bumpSummary_unknown {t : String}
    (h : t ∉ (["light", "medium", "heavy", "blocked", "accident"] : List String))
    (s : Summary) : bumpSummary s t = s := by
  simp only [List.mem_cons, List.not_mem_nil, or_false, not_or] at h
  obtain ⟨h1, h2, h3, h4, h5⟩ := h
  have e1 : (t == "light") = false := beq_eq_false_iff_ne.mpr h1
  have e2 : (t == "medium") = false := beq_eq_false_iff_ne.mpr h2
  have e3 : (t == "heavy") = false := beq_eq_false_iff_ne.mpr h3
  have e4 : (t == "blocked") = false := beq_eq_false_iff_ne.mpr h4
  have e5 : (t == "accident") = false := beq_eq_false_iff_ne.mpr h5
  rw [bumpSummary]
  simp [e1, e2, e3, e4, e5]

/-- C6: the summary is total — it is exactly the per-type count over the
five keys, the empty list gives all zeroes, and a report whose type is
outside the enum changes nothing and raises nothing. -/
theorem claim6_summary_total :
    (∀ reports : List Report, getReportSummary reports =
      { light := reports.countP (fun r => r.reportType == "light")
        medium := reports.countP (fun r => r.reportType == "medium")
        heavy := reports.countP (fun r => r.reportType == "heavy")
        blocked := reports.countP (fun r => r.reportType == "blocked")
        accident := reports.countP (fun r => r.reportType == "accident") }) ∧
    getReportSummary [] = Summary.zero ∧
    ∀ (reports : List Report) (r : Report),
      r.reportType ∉ (["light", "medium", "heavy", "blocked", "accident"] : List String) →
      getReportSummary (reports ++ [r]) = getReportSummary reports := by
  refine ⟨getReportSummary_eq_counts, rfl, ?_⟩
  intro reports r h
  rw [getReportSummary, List.foldl_append, List.foldl_cons, List.foldl_nil,
    bumpSummary_unknown h]
  rfl

/-- C6, witness: appending a report of unknown type "weird" leaves the
summary unchanged. -/
theorem claim6_summary_total_witness :
    getReportSummary ([] ++ [mkReport 1 "r1" "KN 5" "weird" 0]) = getReportSummary [] :=
  claim6_summary_total.2.2 [] (mkReport 1 "r1" "KN 5" "weird" 0) (by decide)

/-! ## C3 and C4: the historical pattern inferencer -/

theorem summaryGet_blocked (s : Summary) : summaryGet s "blocked" = s.blocked := rfl

theorem summaryGet_heavy (s : Summary) : summaryGet s "heavy" = s.heavy := rfl

theorem summaryGet_medium (s : Summary) : summaryGet s "medium" = s.medium := rfl

theorem summaryGet_light (s : Summary) : summaryGet s "light" = s.light := rfl

theorem summaryGet_accident (s : Summary) : summaryGet s "accident" = s.accident := rfl

/-- `pickType` returns the first list element with a positive tally. -/
theorem pickType_first : ∀ (l : List String) (s : Summary) (t : String),
    pickType s l = some t →
    ∃ pre post, l = pre ++ t :: post ∧ summaryGet s t > 0 ∧
      ∀ u ∈ pre, summaryGet s u = 0 := by
  intro l
  induction l with
  | nil => intro s t h; simp [pickType] at h
  | cons a tl ih =>
    intro s t h
    rw [pickType] at h
    by_cases hp : summaryGet s a > 0
    · rw [if_pos hp] at h
      obtain rfl := Option.some.inj h
      exact ⟨[], tl, rfl, hp, by simp⟩
    · rw [if_neg hp] at h
      obtain ⟨pre, post, rfl, hpos, hzero⟩ := ih s t h
      refine ⟨a :: pre, post, rfl, hpos, ?_⟩
      intro u hu
      rcases List.mem_cons.mp hu with rfl | hu
      · omega
      · exact hzero u hu

theorem pickType_severity_none_iff (s : Summary) :
    pickType s severityOrder = none ↔ noKnownSeverity s := by
  simp only [severityOrder, pickType, summaryGet_blocked, summaryGet_heavy,
    summaryGet_medium, summaryGet_light, summaryGet_accident, noKnownSeverity]
  split_ifs <;> simp_all <;> omega

theorem patternFromReports_none_iff (m : List Report) :
    patternFromReports m = none ↔ m = [] ∨ noKnownSeverity (getReportSummary m) := by
  rw [patternFromReports]
  by_cases hm : m.isEmpty
  · simp [hm, List.isEmpty_iff.mp hm]
  · have hm' : m ≠ [] := by simpa [List.isEmpty_iff] using hm
    simp only [hm, if_false, Bool.false_eq_true, hm', false_or]
    cases hpt : pickType (getReportSummary m) severityOrder with
    | none => simpa using (pickType_severity_none_iff (getReportSummary m)).mp hpt
    | some t =>
      simp only [reduceCtorEq, false_iff]
      intro hz
      rw [(pickType_severity_none_iff (getReportSummary m)).mpr hz] at hpt
      exact Option.noConfusion hpt

theorem patternFromReports_some {m : List Report} {p : Pattern}
    (h : patternFromReports m = some p) :
    p.totalReports = m.length ∧
    p.count = summaryGet (getReportSummary m) p.type ∧
    p.confidence = (p.count : ℚ) / (p.totalReports : ℚ) ∧
    firstPositive (getReportSummary m) p.type := by
  rw [patternFromReports] at h
  by_cases hm : m.isEmpty
  · simp [hm] at h
  · simp only [hm, if_false, Bool.false_eq_true] at h
    cases hpt : pickType (getReportSummary m) severityOrder with
    | none => rw [hpt] at h; exact Option.noConfusion h
    | some t =>
      rw [hpt] at h
      obtain rfl := Option.some.inj h
      obtain ⟨pre, post, hdec, hpos, hzero⟩ :=
        pickType_first severityOrder (getReportSummary m) t hpt
      exact ⟨rfl, rfl, rfl, pre, post, hdec, hpos, hzero⟩

/-- C3: whenever the inferencer produces a pattern from a non-empty matched
set, its type is the first of [blocked, heavy, medium, light, accident]
with a positive tally, regardless of the raw majority; concretely for the
pool with counts light=5, heavy=1 the result type is "heavy". -/
theorem claim3_severity_priority :
    (∀ (matched : List Report) (p : Pattern), matched ≠ [] →
        patternFromReports matched = some p →
        firstPositive (getReportSummary matched) p.type) ∧
    getReportSummary (historicalMatched poolLightHeavy "r1" "" 4 0) =
      { light := 5, medium := 0, heavy := 1, blocked := 0, accident := 0 } ∧
    (getHistoricalPattern poolLightHeavy "r1" "" 4 0).map Pattern.type = some "heavy" := by
  refine ⟨?_, by decide, by decide⟩
  intro matched p _ hp
  exact (patternFromReports_some hp).2.2.2

/-- C3, witness: the priority property applied to a singleton heavy pool. -/
theorem claim3_severity_priority_witness :
    firstPositive (getReportSummary [reportHeavyOnly]) patternHeavyOnly.type :=
  claim3_severity_priority.1 [reportHeavyOnly] patternHeavyOnly
    (by decide) rfl

/-- C4, counterexample: a matched set consisting of one report whose type
lies outside the enum makes the roadId historical query non-empty, yet
`getHistoricalPattern` still returns null — so "null iff both queries are
empty" is false. -/
theorem claim4_null_iff_counterexample :
    historicalMatched poolUnknownType "r1" "" 4 0 ≠ [] ∧
    getHistoricalPattern poolUnknownType "r1" "" 4 0 = none := by
  decide

/-- C4, amended: `getHistoricalPattern` returns null iff the two-stage
historical query is empty OR none of its reports carries one of the five
known severities; whenever it returns a pattern, totalReports is the size
of the matched set, count is the tally of the pattern's type, and
confidence is count divided by totalReports. -/
theorem claim4_null_iff_amended (pool : List Report) (roadId streetName : String)
    (day hour : Nat) :
    (getHistoricalPattern pool roadId streetName day hour = none ↔
      historicalMatched pool roadId streetName day hour = [] ∨
      noKnownSeverity (getReportSummary (historicalMatched pool roadId streetName day hour))) ∧
    ∀ p, getHistoricalPattern pool roadId streetName day hour = some p →
      p.totalReports = (historicalMatched pool roadId streetName day hour).length ∧
      p.count = summaryGet
        (getReportSummary (historicalMatched pool roadId streetName day hour)) p.type ∧
      p.confidence = (p.count : ℚ) / (p.totalReports : ℚ) := by
  refine ⟨patternFromReports_none_iff _, ?_⟩
  intro p hp
  obtain ⟨h1, h2, h3, -⟩ := patternFromReports_some hp
  exact ⟨h1, h2, h3⟩

/-- C4, witness: the amended theorem applied to the light/heavy pool and
its inferred pattern. -/
theorem claim4_null_iff_amended_witness :
    patternLightHeavy.totalReports = (historicalMatched poolLightHeavy "r1" "" 4 0).length ∧
    patternLightHeavy.count = summaryGet
      (getReportSummary (historicalMatched poolLightHeavy "r1" "" 4 0)) patternLightHeavy.type ∧
    patternLightHeavy.confidence =
      (patternLightHeavy.count : ℚ) / (patternLightHeavy.totalReports : ℚ) :=
  (claim4_null_iff_amended poolLightHeavy "r1" "" 4 0).2 patternLightHeavy rfl

/-! ## C7: route-level aggregation -/

/-- C7: `hasFlaggedRoads` holds exactly when some segment matched at least
one report, and each traffic-summary field counts the segments whose
matched-report summary is positive for that severity — a segment count,
so the three heavy reports of `poolThreeHeavy` on one segment contribute
exactly 1 to `trafficSummary.heavy`. -/
theorem claim7_route_aggregation :
    (∀ (dist : ℚ → ℚ → ℚ → ℚ → ℚ) (pool : List Report) (now day hour : Nat)
        (segments : List Segment),
      ((annotateRoute dist pool now day hour segments).hasFlaggedRoads = true ↔
        ∃ seg ∈ segments, matchReports dist pool seg ≠ []) ∧
      (annotateRoute dist pool now day hour segments).trafficSummary.heavy
        = segments.countP
            (fun seg => decide (0 < (getReportSummary (matchReports dist pool seg)).heavy)) ∧
      (annotateRoute dist pool now day hour segments).trafficSummary.medium
        = segments.countP
            (fun seg => decide (0 < (getReportSummary (matchReports dist pool seg)).medium)) ∧
      (annotateRoute dist pool now day hour segments).trafficSummary.light
        = segments.countP
            (fun seg => decide (0 < (getReportSummary (matchReports dist pool seg)).light)) ∧
      (annotateRoute dist pool now day hour segments).trafficSummary.blocked
        = segments.countP
            (fun seg => decide (0 < (getReportSummary (matchReports dist pool seg)).blocked))) ∧
    (annotateRoute dist0 poolThreeHeavy 600000 4 0 [segOnePoint]).trafficSummary =
      { heavy := 1, medium := 0, light := 0, blocked := 0 } ∧
    (annotateRoute dist0 poolThreeHeavy 600000 4 0 [segOnePoint]).hasFlaggedRoads = true := by
  refine ⟨?_, by decide, by decide⟩
  intro dist pool now day hour segments
  constructor
  · simp only [annotateRoute, List.any_eq_true, List.mem_map, decide_eq_true_eq]
    constructor
    · rintro ⟨x, ⟨seg, hseg, rfl⟩, hpos⟩
      refine ⟨seg, hseg, ?_⟩
      have hlen : 0 < (matchReports dist pool seg).length := hpos
      exact List.length_pos.mp hlen
    · rintro ⟨seg, hseg, hne⟩
      refine ⟨annotateSegment dist pool now day hour seg, ⟨seg, hseg, rfl⟩, ?_⟩
      show (matchReports dist pool seg).length > 0
      exact List.length_pos.mpr hne
  · refine ⟨?_, ?_, ?_, ?_⟩ <;>
      · simp only [annotateRoute, List.countP_eq_length_filter, List.filter_map,
          List.length_map]
        rfl

/-! ## C1: strict tier priority of the segment matcher -/

theorem matchReports_eq_coordTier {dist : ℚ → ℚ → ℚ → ℚ → ℚ} {pool : List Report}
    {seg : Segment} (hg : seg.geometry ≠ [])
    (hne : coordMatches dist pool seg.geometry ≠ []) :
    matchReports dist pool seg = coordMatches dist pool seg.geometry := by
  rw [matchReports]
  have hg' : seg.geometry.isEmpty = false := by simpa [List.isEmpty_iff] using hg
  have hc' : (coordMatches dist pool seg.geometry).isEmpty = false := by
    simpa [List.isEmpty_iff] using hne
  simp [hg', hc']

theorem coordMatches_ne_nil {dist : ℚ → ℚ → ℚ → ℚ → ℚ} {pool : List Report}
    {geometry : List Point}
    (h : ∃ p ∈ geometry, getReportsNearLocation dist pool p.lat p.lng 200 ≠ []) :
    coordMatches dist pool geometry ≠ [] := by
  obtain ⟨p, hp, hne⟩ := h
  obtain ⟨r, hr⟩ := List.exists_mem_of_ne_nil _ hne
  have hrflat := mem_coordMatches_iff.mpr ⟨p, hp, hr⟩
  rcases @dedupByKey_covers _ _ [] hrflat with hk | ⟨r', hr', -⟩
  · exact absurd hk (List.not_mem_nil _)
  · intro hnil
    rw [coordMatches] at hnil
    rw [hnil] at hr'
    exact List.not_mem_nil r' hr'

/-- C1: when a segment has geometry and some geometry point has a report
within 200 m, the matching step returns exactly the deduplicated
coordinate-tier union — whatever the roadId-tier and name-tier would have
returned — and that result covers precisely the reports near some geometry
point (up to the report-id deduplication key). -/
theorem claim1_tier_strictness (dist : ℚ → ℚ → ℚ → ℚ → ℚ) (pool : List Report)
    (seg : Segment) (hg : seg.geometry ≠ [])
    (hne : ∃ p ∈ seg.geometry, getReportsNearLocation dist pool p.lat p.lng 200 ≠ []) :
    matchReports dist pool seg = coordMatches dist pool seg.geometry ∧
    (∀ r ∈ matchReports dist pool seg,
        ∃ p ∈ seg.geometry, r ∈ getReportsNearLocation dist pool p.lat p.lng 200) ∧
    (∀ r, (∃ p ∈ seg.geometry, r ∈ getReportsNearLocation dist pool p.lat p.lng 200) →
        ∃ r' ∈ matchReports dist pool seg, keyOf r' = keyOf r) := by
  have heq := matchReports_eq_coordTier hg (coordMatches_ne_nil hne)
  refine ⟨heq, ?_, ?_⟩
  · intro r hr
    rw [heq, coordMatches] at hr
    exact mem_coordMatches_iff.mp (dedupByKey_subset hr)
  · intro r hr
    have hrflat := mem_coordMatches_iff.mpr hr
    rcases @dedupByKey_covers _ _ [] hrflat with hk | ⟨r', hr', hkey⟩
    · exact absurd hk (List.not_mem_nil _)
    · exact ⟨r', by rw [heq, coordMatches]; exact hr', hkey⟩

/-- C1, witness: the tier-strictness equality on a one-point segment whose
pool matches by coordinates. -/
theorem claim1_tier_strictness_witness :
    matchReports dist0 poolThreeHeavy segOnePoint =
      coordMatches dist0 poolThreeHeavy segOnePoint.geometry :=
  (claim1_tier_strictness dist0 poolThreeHeavy segOnePoint (by decide) (by decide)).1

/-! ## C5: the fuzzy street-name rule -/

theorem streetNameHit_iff (a : List Char) (roadName : String) :
    streetNameHit a roadName = true ↔
      trimStr (lowerStr roadName.data) = a ∨
      hasSub a (trimStr (lowerStr roadName.data)) = true ∨
      hasSub (trimStr (lowerStr roadName.data)) a = true ∨
      ∃ c, findCode (trimStr (lowerStr roadName.data)) = some c ∧ findCode a = some c := by
  rw [streetNameHit]
  by_cases h1 : trimStr (lowerStr roadName.data) == a
  · simp [h1, beq_iff_eq.mp h1]
  · rw [if_neg (by simpa using h1)]
    have h1' : ¬ trimStr (lowerStr roadName.data) = a := by simpa using h1
    by_cases h2 : hasSub a (trimStr (lowerStr roadName.data))
      || hasSub (trimStr (lowerStr roadName.data)) a
    · rw [if_pos h2]
      rcases Bool.or_eq_true_iff.mp h2 with h | h <;> simp [h]
    · rw [if_neg h2]
      have h2f : (hasSub a (trimStr (lowerStr roadName.data))
          || hasSub (trimStr (lowerStr roadName.data)) a) = false := by
        simpa using h2
      have h2' := Bool.or_eq_false_iff.mp h2f
      cases hf1 : findCode (trimStr (lowerStr roadName.data)) with
      | none => simp [hf1, h1', h2'.1, h2'.2]
      | some x =>
        cases hf2 : findCode a with
        | none => simp [hf1, hf2, h1', h2'.1, h2'.2]
        | some y =>
          simp only [hf1, hf2, h1', h2'.1, h2'.2, Bool.false_eq_true, false_or,
            Option.some.injEq, beq_iff_eq]
          constructor
          · intro h
            exact ⟨x, rfl, h.symm⟩
          · rintro ⟨c, rfl, rfl⟩
            rfl

/-- C5, counterexample: on the spec's reading "KN5" and "KN 5" carry the
same road code (whitespace normalized), but the implementation compares
the regex match verbatim — "kn5" vs "kn 5" — so the query "KN5" does not
return the report named "KN 5". -/
theorem claim5_street_name_counterexample :
    specNameMatch "KN5" "KN 5" = true ∧
    getReportsByStreetName [reportKN5Spaced] "KN5" = [] := by
  decide

/-- C5, amended: after lowercasing and trimming, a stored report is
returned for a non-empty query exactly when the two names are equal, one
contains the other, or both contain a `(kn|kg|dr)\s*\d+` road code whose
matched substrings agree verbatim — internal whitespace included, so
"KN5" and "KN 5" do NOT match through the road-code rule. -/
theorem claim5_street_name_amended (pool : List Report) (name : String) (r : Report) :
    r ∈ getReportsByStreetName pool name ↔
      name ≠ "" ∧ r ∈ pool ∧ amendedNameRule name r.roadName := by
  rw [getReportsByStreetName]
  by_cases hn : name = ""
  · simp [hn]
  · rw [if_neg (by simpa using hn)]
    rw [List.mem_filter]
    simp only [amendedNameRule]
    rw [streetNameHit_iff]
    tauto

end SmartRoads
